import Mathlib

/-!
# Verification of the nutricheF recommendation / planning core

Shallow embedding, in Lean 4, of the scoring, recommendation, planning and
rating-maintenance code of the nutricheF backend
(`backend/app/services/*.py`, `backend/app/repositories/*.py`,
`backend/scripts/train_ml_model.py`), together with theorems settling the
behavioural claims about that code.

Modelling conventions:
* Python `float` values are modelled as `ℚ`, except where the source computes
  with `math.log` or square roots (the collaborative-filtering model), where
  `ℝ` is used.
* Python `None`-able values are `Option`; Python truthiness of strings and
  numbers (`None`, `""` and `0.0` are falsy) is made explicit.
* Python dicts (insertion ordered, key-updating) are association lists.
* Python strings are Lean `String`s, with the handful of string operations the
  source uses (`lower`, `strip`, `split(',')`, substring `in`) re-implemented
  by structural recursion on the character list so that they compute.
-/

/-- Python `str.lower()` (source strings are ASCII). -/
def pyLower (s : String) : String := ⟨s.data.map Char.toLower⟩

/-- Python `str.strip()`: drop leading and trailing whitespace. -/
def pyStrip (s : String) : String :=
  ⟨((s.data.dropWhile Char.isWhitespace).reverse.dropWhile Char.isWhitespace).reverse⟩

/-- Helper for `pySplit`: accumulates the current (reversed) chunk. -/
def splitCharAux (c : Char) (cur : List Char) : List Char → List String
  | [] => [⟨cur.reverse⟩]
  | x :: xs => if x = c then ⟨cur.reverse⟩ :: splitCharAux c [] xs
               else splitCharAux c (x :: cur) xs

/-- Python `s.split(c)` for a one-character separator (the source only ever
splits on `','`).  `"".split(',') = ['']`, as in Python. -/
def pySplit (s : String) (c : Char) : List String := splitCharAux c [] s.data

/-- Is `needle` a contiguous infix of the character list?  (Python `in`.) -/
def charInfix (needle : List Char) : List Char → Bool
  | [] => needle.isPrefixOf []
  | x :: xs => needle.isPrefixOf (x :: xs) || charInfix needle xs

/-- Python substring test `needle in hay`. -/
def pyIn (needle hay : String) : Bool := charInfix needle.data hay.data

/-- Python truthiness of an optional string (`None` and `""` are falsy). -/
def truthyStr : Option String → Bool
  | none => false
  | some s => s ≠ ""

/-- Python truthiness of an optional number (`None` and `0.0` are falsy). -/
def truthyQ : Option ℚ → Bool
  | none => false
  | some q => q ≠ 0

/-- Python `x or d` for an optional number `x` (used for defaulted targets:
`None` and `0.0` both fall back to the default). -/
def orDefault (o : Option ℚ) (d : ℚ) : ℚ :=
  match o with
  | none => d
  | some q => if q = 0 then d else q

/-- Python dict lookup `d.get(k)` on an association list. -/
def dictGet? {α β : Type} [DecidableEq α] (l : List (α × β)) (k : α) : Option β :=
  match l with
  | [] => none
  | p :: rest => if p.1 = k then some p.2 else dictGet? rest k

/-- Python dict membership `k in d`. -/
def dictHas {α β : Type} [DecidableEq α] (l : List (α × β)) (k : α) : Bool :=
  (dictGet? l k).isSome

/-- Python dict update `d[k] = v`: overwrite the (first) binding of `k`, or
append a fresh binding at the end, preserving insertion order. -/
def dictInsert {α β : Type} [DecidableEq α] (l : List (α × β)) (k : α) (v : β) :
    List (α × β) :=
  match l with
  | [] => [(k, v)]
  | p :: rest => if p.1 = k then (k, v) :: rest else p :: dictInsert rest k v

/-- Round a rational to the nearest integer, ties to even
(the rounding used by Python's `round`). -/
def roundHalfEven (q : ℚ) : ℤ :=
  let f := ⌊q⌋
  let frac := q - f
  if frac < 1/2 then f
  else if 1/2 < frac then f + 1
  else if f % 2 = 0 then f else f + 1

/-- Python `round(q, d)`. -/
def pyRound (d : ℕ) (q : ℚ) : ℚ := (roundHalfEven (q * 10 ^ d) : ℚ) / 10 ^ d

/-! ## Data model

Fields are restricted to those the embedded services read. -/

/-- `app/models/meal.py` (`Meal`), restricted to the fields the scoring,
planning and matching code reads. -/
structure Meal where
  id : ℤ
  name : String
  description : Option String
  category : Option String
  calories : ℚ
  protein : ℚ
  carbohydrates : ℚ
  fat : ℚ
  ingredients : Option String
  average_rating : ℚ
  rating_count : ℕ
  is_vegetarian : Bool
  is_vegan : Bool
  is_gluten_free : Bool
  is_dairy_free : Bool
  is_nut_free : Bool
  is_halal : Bool
  is_kosher : Bool
deriving DecidableEq

/-- `app/models/preference.py` (`Preference`), fields read by the services. -/
structure Preference where
  vegetarian : Bool
  vegan : Bool
  gluten_free : Bool
  dairy_free : Bool
  nut_free : Bool
  halal : Bool
  kosher : Bool
  preferred_cuisine : Option String
  disliked_ingredients : Option String
  favorite_ingredients : Option String
deriving DecidableEq

/-- `app/models/user.py` (`User`), fields read by the services. -/
structure UserProfile where
  id : ℤ
  goal : Option String
  daily_calorie_target : Option ℚ
  daily_protein_target : Option ℚ
  daily_carb_target : Option ℚ
  daily_fat_target : Option ℚ
deriving DecidableEq

/-- `app/models/user_meal.py` (`UserMeal`): a consumption entry together with
its `meal` relationship, as the scorer dereferences `um.meal`. -/
structure UserMealEntry where
  meal_id : ℤ
  meal : Meal
deriving DecidableEq

/-- The dict returned by `UserMealRepository.get_daily_nutrition` (the two keys
the scorer reads via `.get(..., 0)`). -/
structure DailyNutrition where
  total_calories : ℚ
  total_protein : ℚ
deriving DecidableEq

/-! ## NutritionService (`app/services/nutrition_service.py`) -/

/-- `InvalidNutritionDataException` raised by `calculate_bmr`. -/
inductive NutritionError
  | invalidData (message field : String)
deriving DecidableEq

/-- `NutritionService.calculate_bmr`: Mifflin-St Jeor, with positivity
validation and a gender midpoint fallback. -/
def calculate_bmr (weight height : ℚ) (age : ℤ) (gender : String) :
    Except NutritionError ℚ :=
  if weight ≤ 0 then .error (.invalidData "Weight must be positive" "weight")
  else if height ≤ 0 then .error (.invalidData "Height must be positive" "height")
  else if age ≤ 0 then .error (.invalidData "Age must be positive" "age")
  else
    let g := pyLower gender
    if g = "male" then .ok (10 * weight + 6.25 * height - 5 * (age : ℚ) + 5)
    else if g = "female" then .ok (10 * weight + 6.25 * height - 5 * (age : ℚ) - 161)
    else .ok (10 * weight + 6.25 * height - 5 * (age : ℚ) - 78)

/-- `NutritionService.ACTIVITY_MULTIPLIERS` with its `.get(_, 1.2)` default. -/
def activity_multiplier (s : String) : ℚ :=
  if s = "sedentary" then 1.2
  else if s = "lightly_active" then 1.375
  else if s = "moderately_active" then 1.55
  else if s = "very_active" then 1.725
  else if s = "extremely_active" then 1.9
  else 1.2

/-- `NutritionService.calculate_tdee`. -/
def calculate_tdee (bmr : ℚ) (activity_level : String) : ℚ :=
  bmr * activity_multiplier (pyLower activity_level)

/-- `NutritionService.GOAL_ADJUSTMENTS` with its `.get(_, 0)` default. -/
def goal_adjustment (s : String) : ℚ :=
  if s = "weight_loss" then -500
  else if s = "weight_gain" then 500
  else if s = "maintenance" then 0
  else if s = "muscle_gain" then 300
  else 0

/-- `NutritionService.calculate_calorie_target`. -/
def calculate_calorie_target (tdee : ℚ) (goal : String) : ℚ :=
  tdee + goal_adjustment (pyLower goal)

/-- Result record of `calculate_macro_targets`. -/
structure MacroTargets where
  protein : ℚ
  carbohydrates : ℚ
  fat : ℚ
deriving DecidableEq

/-- `NutritionService.calculate_macro_targets`.  The goal-based defaults are
selected when any explicit ratio is `None` **or** `0.0` (Python truthiness of
`not protein_ratio or ...`). -/
def calculate_macro_targets (calories : ℚ) (goal : String)
    (protein_ratio carb_ratio fat_ratio : Option ℚ) : MacroTargets :=
  let gl := pyLower goal
  let r : ℚ × ℚ × ℚ :=
    if !truthyQ protein_ratio || !truthyQ carb_ratio || !truthyQ fat_ratio then
      if gl = "weight_loss" then (0.30, 0.40, 0.30)
      else if gl = "muscle_gain" then (0.35, 0.45, 0.20)
      else if gl = "weight_gain" then (0.25, 0.50, 0.25)
      else (0.30, 0.45, 0.25)
    else (protein_ratio.getD 0, carb_ratio.getD 0, fat_ratio.getD 0)
  { protein := pyRound 2 (calories * r.1 / 4)
    carbohydrates := pyRound 2 (calories * r.2.1 / 4)
    fat := pyRound 2 (calories * r.2.2 / 9) }

/-! ## ContentScorer
(`app/services/recommendation_service.py`, `RecommendationService._calculate_meal_score`) -/

/-- Does the needle match the meal's name or description, as tested by the
scorer: `needle in meal.name.lower() or (meal.description and needle in
meal.description.lower())`. -/
def matches_name_or_description (needle : String) (meal : Meal) : Bool :=
  pyIn needle (pyLower meal.name) ||
    (truthyStr meal.description && pyIn needle (pyLower (meal.description.getD "")))

/-- Steps 2-5 of `_calculate_meal_score`: the additive scoring body reached
once the hard dietary filters pass, including the final `round(score, 3)`. -/
def meal_score_body (meal : Meal) (user : UserProfile) (preference : Option Preference)
    (user_meals : List UserMealEntry) (today : DailyNutrition) : ℚ :=
  let score : ℚ := 0
  -- 2. nutritional fit (`if user.daily_calorie_target:` is Python truthiness)
  let score :=
    if truthyQ user.daily_calorie_target then
      let target := user.daily_calorie_target.getD 0
      let remaining_calories := max 0 (target - today.total_calories)
      let remaining_protein := max 0 (user.daily_protein_target.getD 0 - today.total_protein)
      let score :=
        if remaining_calories > 0 then
          score + max 0 (min 1 (1 - |meal.calories - remaining_calories * 0.3| / remaining_calories)) * 0.3
        else score
      if (user.goal = some "muscle_gain" ∨ user.goal = some "weight_loss") ∧ remaining_protein > 0 then
        score + min 1 (meal.protein / (remaining_protein * 0.4)) * 0.2
      else score
    else score
  -- 3. preference similarity (cuisine keyword, favorite ingredients)
  let score :=
    match preference with
    | none => score
    | some p =>
      let score :=
        if truthyStr p.preferred_cuisine then
          if matches_name_or_description (pyLower (p.preferred_cuisine.getD "")) meal then
            score + 0.2
          else score
        else score
      if truthyStr p.favorite_ingredients then
        ((pySplit (p.favorite_ingredients.getD "") ',').map fun i => pyLower (pyStrip i)).foldl
          (fun s ing => if matches_name_or_description ing meal then s + 0.1 else s) score
      else score
  -- 4. historical preference
  let score :=
    if user_meals ≠ [] then
      let cats := (user_meals.filter fun um => truthyStr um.meal.category).map
        fun um => um.meal.category.getD ""
      let score :=
        if (match meal.category with
            | some c => cats.contains c
            | none => false) then score + 0.2
        else score
      if (user_meals.map (·.meal_id)).contains meal.id then score + 0.3 else score
    else score
  -- 5. nutritional density bonus
  let score :=
    if meal.calories > 0 then
      if meal.protein / meal.calories > 0.1 then score + 0.1 else score
    else score
  pyRound 3 score

/-- `RecommendationService._calculate_meal_score`: seven short-circuiting hard
dietary filters, then the additive scoring body. -/
def calculate_meal_score (meal : Meal) (user : UserProfile) (preference : Option Preference)
    (user_meals : List UserMealEntry) (today : DailyNutrition) : ℚ :=
  match preference with
  | some p =>
    if p.vegetarian && !meal.is_vegetarian then 0
    else if p.vegan && !meal.is_vegan then 0
    else if p.gluten_free && !meal.is_gluten_free then 0
    else if p.dairy_free && !meal.is_dairy_free then 0
    else if p.nut_free && !meal.is_nut_free then 0
    else if p.halal && !meal.is_halal then 0
    else if p.kosher && !meal.is_kosher then 0
    else meal_score_body meal user preference user_meals today
  | none => meal_score_body meal user preference user_meals today

/-! ## Concrete fixtures used by witnesses and counterexamples -/

/-- A plain meal with no dietary flags set. -/
def mealPlain : Meal :=
  { id := 1, name := "Chicken Bowl", description := none, category := some "lunch"
    calories := 100, protein := 20, carbohydrates := 10, fat := 3
    ingredients := some "chicken, rice", average_rating := 0, rating_count := 0
    is_vegetarian := false, is_vegan := false, is_gluten_free := false
    is_dairy_free := false, is_nut_free := false, is_halal := false, is_kosher := false }

/-- A preference requiring vegan meals and nothing else. -/
def prefVegan : Preference :=
  { vegetarian := false, vegan := true, gluten_free := false, dairy_free := false
    nut_free := false, halal := false, kosher := false
    preferred_cuisine := none, disliked_ingredients := none, favorite_ingredients := none }

/-- A user with no targets and no goal. -/
def userBare : UserProfile :=
  { id := 7, goal := none, daily_calorie_target := none, daily_protein_target := none
    daily_carb_target := none, daily_fat_target := none }

/-! ## CollaborativeFilteringModel (`backend/scripts/train_ml_model.py`)

Ratings are rational.  `calculate_popularity_scores` multiplies by `math.log`
and `cosine_similarity` takes square roots, so popularity values, similarities
and predictions live in `ℝ` (and those definitions are noncomputable). -/

/-- One training interaction record `{user_id, meal_id, rating}`
(`load_interactions` stringifies the user id). -/
structure Interaction where
  user_id : String
  meal_id : ℤ
  rating : ℚ
deriving DecidableEq

/-- State of a `CollaborativeFilteringModel`. -/
structure CFModel where
  user_ratings : List (String × List (ℤ × ℚ))
  meal_ratings : List (ℤ × List (String × ℚ))
  meal_popularity : List (ℤ × ℝ)
  is_trained : Bool

/-- `load_interactions`: populate both rating maps in input order, starting
from a fresh model. -/
def load_interactions (interactions : List Interaction) : CFModel :=
  interactions.foldl
    (fun M i =>
      { M with
        user_ratings := dictInsert M.user_ratings i.user_id
          (dictInsert ((dictGet? M.user_ratings i.user_id).getD []) i.meal_id i.rating)
        meal_ratings := dictInsert M.meal_ratings i.meal_id
          (dictInsert ((dictGet? M.meal_ratings i.meal_id).getD []) i.user_id i.rating) })
    { user_ratings := [], meal_ratings := [], meal_popularity := [], is_trained := false }

/-- `calculate_popularity_scores`: for every meal with a non-empty rating map,
`popularity = avg_rating * log(num_ratings + 1)`. -/
noncomputable def calculate_popularity_scores (M : CFModel) : CFModel :=
  { M with
    meal_popularity :=
      (M.meal_ratings.filter fun p => !p.2.isEmpty).map fun p =>
        (p.1, (((p.2.map Prod.snd).sum / p.2.length : ℚ) : ℝ) * Real.log (p.2.length + 1)) }

/-- `CollaborativeFilteringModel.train` (minus file I/O): load interactions,
compute popularity, set the trained flag. -/
noncomputable def cf_train (interactions : List Interaction) : CFModel :=
  { calculate_popularity_scores (load_interactions interactions) with is_trained := true }

open Classical in
/-- `cosine_similarity(user1_ratings, user2_ratings)`: zero on disjoint
supports, otherwise dot product over the common meals divided by the product
of the magnitudes of the two **full** rating vectors (zero if either
magnitude vanishes). -/
noncomputable def cosine_similarity (u1 u2 : List (ℤ × ℚ)) : ℝ :=
  let common_meals := (u1.map Prod.fst).filter fun m => dictHas u2 m
  if common_meals = [] then 0
  else
    let dot_product : ℝ :=
      (((common_meals.map fun m => (dictGet? u1 m).getD 0 * (dictGet? u2 m).getD 0).sum : ℚ) : ℝ)
    let mag1 := Real.sqrt (((u1.map fun p => p.2 ^ 2).sum : ℚ) : ℝ)
    let mag2 := Real.sqrt (((u2.map fun p => p.2 ^ 2).sum : ℚ) : ℝ)
    if mag1 = 0 ∨ mag2 = 0 then 0 else dot_product / (mag1 * mag2)

open Classical in
/-- `find_similar_users(user_id, k)`: scan all other users, keep strictly
positive similarities, sort descending, take `k`. -/
noncomputable def find_similar_users (M : CFModel) (user_id : String) (k : ℕ) :
    List (String × ℝ) :=
  match dictGet? M.user_ratings user_id with
  | none => []
  | some user_ratings =>
    let similarities := (M.user_ratings.filter fun p => p.1 ≠ user_id).filterMap
      fun p =>
        let similarity := cosine_similarity user_ratings p.2
        if similarity > 0 then some (p.1, similarity) else none
    (similarities.mergeSort fun a b => decide (b.2 ≤ a.2)).take k

open Classical in
/-- The part of `predict_rating` after the verbatim-rating short-circuit:
top-20 similar users, similarity-weighted average clamped to `[1, 5]`,
falling back to `meal_popularity.get(meal_id, 3.0)`. -/
noncomputable def predict_fallback (M : CFModel) (user_id : String) (meal_id : ℤ) : ℝ :=
  let similar_users := find_similar_users M user_id 20
  if similar_users.isEmpty then (dictGet? M.meal_popularity meal_id).getD 3
  else
    let rated := similar_users.filter fun p =>
      dictHas ((dictGet? M.user_ratings p.1).getD []) meal_id
    let weighted_sum : ℝ := (rated.map fun p =>
      (((dictGet? ((dictGet? M.user_ratings p.1).getD []) meal_id).getD 0 : ℚ) : ℝ) * p.2).sum
    let total_weight : ℝ := (rated.map fun p => |p.2|).sum
    if total_weight > 0 then max 1 (min 5 (weighted_sum / total_weight))
    else (dictGet? M.meal_popularity meal_id).getD 3

/-- `predict_rating(user_id, meal_id)`: a rating the user already gave is
returned verbatim; otherwise `predict_fallback`. -/
noncomputable def predict_rating (M : CFModel) (user_id : String) (meal_id : ℤ) : ℝ :=
  if dictHas M.user_ratings user_id &&
     dictHas ((dictGet? M.user_ratings user_id).getD []) meal_id then
    (((dictGet? ((dictGet? M.user_ratings user_id).getD []) meal_id).getD 0 : ℚ) : ℝ)
  else predict_fallback M user_id meal_id

/-- Claim-side formulation (C8): the common rated meals of two rating maps. -/
def spec_common (u1 u2 : List (ℤ × ℚ)) : List ℤ :=
  (u1.map Prod.fst).filter fun m => dictHas u2 m

/-- Claim-side formulation (C8): Euclidean norm of a user's **entire** rating
vector. -/
noncomputable def spec_magnitude (u : List (ℤ × ℚ)) : ℝ :=
  Real.sqrt (((u.map fun p => p.2 ^ 2).sum : ℚ) : ℝ)

/-- Claim-side formulation (C8): sum of rating products over the common
meals. -/
def spec_dot (u1 u2 : List (ℤ × ℚ)) : ℚ :=
  ((spec_common u1 u2).map fun m => (dictGet? u1 m).getD 0 * (dictGet? u2 m).getD 0).sum

/-- Three users who all rated meal 1 with 5 stars: training data whose
popularity score for meal 1 is `5 * log 4 > 5`. -/
def threeFives : List Interaction := [⟨"1", 1, 5⟩, ⟨"2", 1, 5⟩, ⟨"3", 1, 5⟩]

/-! ## MLRecommendationService (`app/services/ml_recommendation_service.py`) -/

/-- One scored candidate of `get_recommendations`' combination loop:
the tuple `(meal, hybrid_score, ml_score, content_score)`. -/
structure ScoredMeal where
  meal : Meal
  hybrid_score : ℚ
  ml_score : ℚ
  content_score : ℚ
deriving DecidableEq

/-- The hybrid combination loop of `MLRecommendationService.get_recommendations`
(lines 167-195): per candidate meal compute the content score, skip meals
scoring exactly 0, normalise the ML prediction when the dict holds one
(`(clamp(raw,1,5) - 1) / 4`), and blend with weight 0.6/0.4 only when the
normalised ML score is strictly positive.  `ml_predictions` is the dict built
from the collaborative model's `get_recommendations` output. -/
def ml_scored_meals (user : UserProfile) (preference : Option Preference)
    (user_meals : List UserMealEntry) (today : DailyNutrition)
    (all_meals : List Meal) (ml_predictions : List (ℤ × ℚ)) : List ScoredMeal :=
  all_meals.filterMap fun meal =>
    let content_score := calculate_meal_score meal user preference user_meals today
    if content_score = 0 then none
    else
      let ml_score : ℚ :=
        match dictGet? ml_predictions meal.id with
        | some raw => (max 1 (min 5 raw) - 1) / 4
        | none => 0
      let hybrid_score :=
        if ml_score > 0 then ml_score * 0.6 + content_score * 0.4 else content_score
      some ⟨meal, hybrid_score, ml_score, content_score⟩

/-- Lines 197-202 of `get_recommendations`: stable sort of the scored meals by
hybrid score, descending, truncated to `limit`. -/
def ml_ranked (user : UserProfile) (preference : Option Preference)
    (user_meals : List UserMealEntry) (today : DailyNutrition)
    (all_meals : List Meal) (ml_predictions : List (ℤ × ℚ)) (limit : ℕ) :
    List ScoredMeal :=
  ((ml_scored_meals user preference user_meals today all_meals
      ml_predictions).mergeSort fun a b => decide (b.hybrid_score ≤ a.hybrid_score)).take limit

/-! ## AIRecipeService (`app/services/ai_recipe_service.py`)

The TF-IDF vectoriser and sparse-vector cosine similarity from sklearn are
abstracted as a similarity-function parameter `sim` (the composition of
`vectorizer.transform` on the normalised query with `cosine_similarity`
against the entry's stored vector); no verified claim depends on the numeric
values the vectoriser produces, and the search contract below holds for every
such function. -/

/-- One entry of `self.meal_data` as built by `train_model`. -/
structure RecipeEntry where
  meal_id : ℤ
  name : String
  ingredients : List String
  ingredient_text : String
  category : Option String
  calories : ℚ
  protein : ℚ
  average_rating : ℚ
  rating_count : ℕ
  meal : Meal
deriving DecidableEq

/-- `train_model` lines 52-55: keep meals whose ingredient text is non-empty
(Python truthiness of `meal.ingredients and meal.ingredients.strip()`). -/
def meals_with_ingredients (all_meals : List Meal) : List Meal :=
  all_meals.filter fun meal =>
    truthyStr meal.ingredients && (pyStrip (meal.ingredients.getD "") != "")

/-- `train_model` lines 68-89: build one `meal_data` entry.  Ingredients are
split on commas, stripped and lowercased; a stored average rating that is not
strictly positive is replaced by the 2.5 default (`avg_rating =
meal.average_rating if meal.average_rating > 0 else 2.5`). -/
def recipe_entry_of_meal (meal : Meal) : RecipeEntry :=
  let ingredients := (pySplit (meal.ingredients.getD "") ',').map fun i => pyLower (pyStrip i)
  { meal_id := meal.id
    name := meal.name
    ingredients := ingredients
    ingredient_text := String.intercalate " " ingredients
    category := meal.category
    calories := meal.calories
    protein := meal.protein
    average_rating := if meal.average_rating > 0 then meal.average_rating else 2.5
    rating_count := meal.rating_count
    meal := meal }

/-- `train_model` minus the vectoriser fitting and file I/O: `none` when fewer
than 2 meals have ingredients (the `InsufficientData` failure), otherwise the
trained entry list. -/
def ai_train_entries (all_meals : List Meal) : Option (List RecipeEntry) :=
  let withIng := meals_with_ingredients all_meals
  if withIng.length < 2 then none
  else some (withIng.map recipe_entry_of_meal)

/-- One result dict of `find_recipes_by_ingredients`. -/
structure SearchResult where
  meal : Meal
  similarity : ℚ
  matched_ingredients : ℕ
  total_ingredients : ℕ
  score : ℚ
  average_rating : ℚ
  rating_count : ℕ
deriving DecidableEq

/-- `find_recipes_by_ingredients(ingredients, limit, min_ingredients_match)`:
normalise the query tokens, score every trained entry (similarity, count of
query tokens that are substrings of a stored ingredient token, composite
score `0.6*similarity + 0.3*(rating-1)/4 + 0.1*min(matched/len(query), 1)`),
skip entries with `matched < min_ingredients_match`, sort descending by
composite score, truncate to `limit`. -/
def find_recipes_by_ingredients (sim : List String → RecipeEntry → ℚ)
    (entries : List RecipeEntry) (ingredients : List String)
    (limit : ℕ) (min_ingredients_match : ℕ) : List SearchResult :=
  if ingredients.isEmpty then []
  else
    let normalized_ingredients := ingredients.map fun i => pyLower (pyStrip i)
    let results := entries.filterMap fun meal_data =>
      let similarity := sim normalized_ingredients meal_data
      let matched_ingredients := (normalized_ingredients.filter fun ing =>
        meal_data.ingredients.any fun stored_ing => pyIn ing stored_ing).length
      if matched_ingredients < min_ingredients_match then none
      else
        let rating_score := (meal_data.average_rating - 1) / 4
        let match_boost :=
          min ((matched_ingredients : ℚ) / (normalized_ingredients.length : ℚ)) 1
        some ⟨meal_data.meal, similarity, matched_ingredients,
          meal_data.ingredients.length,
          similarity * 0.6 + rating_score * 0.3 + match_boost * 0.1,
          meal_data.average_rating, meal_data.rating_count⟩
    (results.mergeSort fun a b => decide (b.score ≤ a.score)).take limit

/-- A second meal with ingredients, so training has the required 2 entries. -/
def mealTwo : Meal :=
  { mealPlain with id := 2, name := "Rice Pudding", ingredients := some "rice, milk" }

/-! ## Rating repositories and the rating endpoint
(`app/repositories/meal_rating_repository.py`,
`app/repositories/recipe_rating_repository.py`, and `rate_recipe` in
`app/controllers/ai_recipe_controller.py`).

The `MealRating` table validates in the repository and computes statistics on
demand; the `RecipeRating` table is validated by the endpoint's pydantic model
(`rating: Field(..., ge=1.0, le=5.0)`) and maintains the meal's stored
`average_rating` / `rating_count` columns through `_update_meal_rating`.
The controller's user-existence check is orthogonal to the verified
properties and is omitted. -/

/-- A `RecipeRating` row (`app/models/recipe_rating.py`). -/
structure RecipeRatingRow where
  id : ℤ
  user_id : ℤ
  meal_id : ℤ
  rating : ℚ
  comment : Option String
deriving DecidableEq

/-- A `MealRating` row (`app/models/meal_rating.py`). -/
structure MealRatingRow where
  user_id : ℤ
  meal_id : ℤ
  rating : ℚ
  review : Option String
deriving DecidableEq

/-- The meal columns `_update_meal_rating` touches. -/
structure MealAggRow where
  id : ℤ
  average_rating : ℚ
  rating_count : ℕ
deriving DecidableEq

/-- The database state the recipe-rating flow touches; `next_id` models the
primary-key autoincrement. -/
structure RatingDB where
  recipe_ratings : List RecipeRatingRow
  meals : List MealAggRow
  next_id : ℤ
deriving DecidableEq

/-- The update-or-append step of `MealRatingRepository.create_or_update_rating`:
`.first()` updates the first `(user, meal)` row, overwriting rating and
review; otherwise a new row is appended. -/
def meal_rating_upsert : List MealRatingRow → ℤ → ℤ → ℚ → Option String →
    List MealRatingRow
  | [], u, m, r, rev => [⟨u, m, r, rev⟩]
  | row :: rest, u, m, r, rev =>
    if row.user_id = u ∧ row.meal_id = m then
      ⟨row.user_id, row.meal_id, r, rev⟩ :: rest
    else row :: meal_rating_upsert rest u m r rev

/-- `MealRatingRepository.create_or_update_rating`: raise
`RatingValidationException` when the value is outside `[1, 5]` (before any
write, so the table is unchanged), else upsert. -/
def create_or_update_rating (rows : List MealRatingRow) (user_id meal_id : ℤ)
    (rating : ℚ) (review : Option String) : Except String (List MealRatingRow) :=
  if rating < 1 ∨ rating > 5 then .error "Rating must be between 1 and 5"
  else .ok (meal_rating_upsert rows user_id meal_id rating review)

/-- The update-or-append step of `RecipeRatingRepository.create_or_update`:
the comment is overwritten only when one is supplied
(`if comment is not None`); a new row gets the fresh id `rid`. -/
def recipe_rating_upsert (rows : List RecipeRatingRow) (rid user_id meal_id : ℤ)
    (rating : ℚ) (comment : Option String) : List RecipeRatingRow :=
  match rows with
  | [] => [⟨rid, user_id, meal_id, rating, comment⟩]
  | row :: rest =>
    if row.user_id = user_id ∧ row.meal_id = meal_id then
      ⟨row.id, row.user_id, row.meal_id, rating,
        match comment with
        | some cc => some cc
        | none => row.comment⟩ :: rest
    else row :: recipe_rating_upsert rest rid user_id meal_id rating comment

/-- The live `RecipeRating` rows of one meal. -/
def ratings_for_meal (rows : List RecipeRatingRow) (meal_id : ℤ) :
    List RecipeRatingRow :=
  rows.filter fun row => decide (row.meal_id = meal_id)

/-- `_update_meal_rating`'s average over a meal's live rating rows:
`float(result.avg_rating) if result.avg_rating else 0.0` — 0 with no rows. -/
def meal_avg (rows : List RecipeRatingRow) (meal_id : ℤ) : ℚ :=
  if (ratings_for_meal rows meal_id).length = 0 then 0
  else ((ratings_for_meal rows meal_id).map (·.rating)).sum /
    (ratings_for_meal rows meal_id).length

/-- Write the recomputed aggregates into the first meal row with the id
(`.first()`); no row, no change. -/
def set_meal_agg : List MealAggRow → ℤ → ℚ → ℕ → List MealAggRow
  | [], _, _, _ => []
  | mrow :: rest, mid, avg, cnt =>
    if mrow.id = mid then ⟨mrow.id, avg, cnt⟩ :: rest
    else mrow :: set_meal_agg rest mid avg cnt

/-- `RecipeRatingRepository._update_meal_rating`. -/
def update_meal_rating (db : RatingDB) (meal_id : ℤ) : RatingDB :=
  { db with
    meals := set_meal_agg db.meals meal_id (meal_avg db.recipe_ratings meal_id)
      (ratings_for_meal db.recipe_ratings meal_id).length }

/-- The `rate_recipe` endpoint: pydantic validation of the rating range, meal
404, then `RecipeRatingRepository.create_or_update` (upsert followed by the
meal-aggregate refresh). -/
def rate_recipe (db : RatingDB) (user_id meal_id : ℤ) (rating : ℚ)
    (comment : Option String) : Except String RatingDB :=
  if rating < 1 ∨ rating > 5 then .error "validation error"
  else if (db.meals.find? fun mrow => decide (mrow.id = meal_id)).isNone then
    .error "Meal not found"
  else
    let db1 : RatingDB :=
      { db with
        recipe_ratings :=
          recipe_rating_upsert db.recipe_ratings db.next_id user_id meal_id rating comment
        next_id := db.next_id + 1 }
    .ok (update_meal_rating db1 meal_id)

/-- `RecipeRatingRepository.delete`: remove the row with the given primary
key and refresh that meal's aggregates; `(false, db)` when absent. -/
def recipe_rating_delete (db : RatingDB) (rating_id : ℤ) : Bool × RatingDB :=
  match db.recipe_ratings.find? fun row => decide (row.id = rating_id) with
  | none => (false, db)
  | some row =>
    let db1 : RatingDB :=
      { db with
        recipe_ratings := db.recipe_ratings.eraseP fun r => decide (r.id = rating_id) }
    (true, update_meal_rating db1 row.meal_id)

/-- The `MealRating` rows of one `(user, meal)` pair. -/
def meal_rating_rows_for : List MealRatingRow → ℤ → ℤ → List MealRatingRow
  | [], _, _ => []
  | row :: rest, u, m =>
    if row.user_id = u ∧ row.meal_id = m then row :: meal_rating_rows_for rest u m
    else meal_rating_rows_for rest u m

/-- The `RecipeRating` rows of one `(user, meal)` pair. -/
def recipe_rating_rows_for : List RecipeRatingRow → ℤ → ℤ → List RecipeRatingRow
  | [], _, _ => []
  | row :: rest, u, m =>
    if row.user_id = u ∧ row.meal_id = m then row :: recipe_rating_rows_for rest u m
    else recipe_rating_rows_for rest u m

/-! ## MealPlannerService (`app/services/meal_planner_service.py`)

`random.choice` over the top-3 candidate list is modelled by a universally
quantified choice supply `choice : ℕ → ℕ`: the k-th selection of a run picks
index `choice k % top.length`.  The verified properties hold for every
supply, hence for every realisation of the randomness.  The per-day
`targets_met` percentages and the calendar fields are presentation-only and
are not modelled; the protein/carb/fat targets feed only those fields, so
`plan_single_day` takes just the calorie target. -/

/-- `_filter_by_preferences`: the 7 hard dietary filters and the
case-insensitive disliked-ingredient substring exclusion (skipped when the
preference row is absent). -/
def filter_by_preferences (meals : List Meal) (preference : Option Preference) :
    List Meal :=
  match preference with
  | none => meals
  | some p =>
    meals.filter fun meal =>
      !(p.vegetarian && !meal.is_vegetarian) &&
      !(p.vegan && !meal.is_vegan) &&
      !(p.gluten_free && !meal.is_gluten_free) &&
      !(p.dairy_free && !meal.is_dairy_free) &&
      !(p.nut_free && !meal.is_nut_free) &&
      !(p.halal && !meal.is_halal) &&
      !(p.kosher && !meal.is_kosher) &&
      !(truthyStr p.disliked_ingredients && truthyStr meal.ingredients &&
        (((pySplit (p.disliked_ingredients.getD "") ',').map fun i =>
          pyLower (pyStrip i)).any fun ing => pyIn ing (pyLower (meal.ingredients.getD ""))))

/-- `_categorize_meals`' effective bucket key for one meal:
`(meal.category or 'lunch').lower()`, unknown categories falling to lunch. -/
def planner_category (meal : Meal) : String :=
  let c := pyLower (if truthyStr meal.category then meal.category.getD "" else "lunch")
  if c = "breakfast" ∨ c = "lunch" ∨ c = "dinner" ∨ c = "snack" then c else "lunch"

/-- The four category buckets. -/
structure Buckets where
  breakfast : List Meal
  lunch : List Meal
  dinner : List Meal
  snack : List Meal
deriving DecidableEq

/-- `_categorize_meals`: bucket the eligible meals, then patch empty buckets
in dict-insertion order (breakfast, lunch, dinner, snack): an empty bucket
becomes a copy of the lunch bucket *as it stands at that step*, or the first
5 eligible meals when that lunch bucket is empty too. -/
def categorize_meals (meals : List Meal) : Buckets :=
  let b := meals.filter fun meal => planner_category meal = "breakfast"
  let l := meals.filter fun meal => planner_category meal = "lunch"
  let d := meals.filter fun meal => planner_category meal = "dinner"
  let s := meals.filter fun meal => planner_category meal = "snack"
  let b := if b.isEmpty then (if l.isEmpty then meals.take 5 else l) else b
  let l := if l.isEmpty then (if l.isEmpty then meals.take 5 else l) else l
  let d := if d.isEmpty then (if l.isEmpty then meals.take 5 else l) else d
  let s := if s.isEmpty then (if l.isEmpty then meals.take 5 else l) else s
  ⟨b, l, d, s⟩

/-- `_select_best_meal`: prefer meals not yet used, score every candidate by
`|calories - target| / (target + 1)` (lower is better), sort ascending, keep
the best `min 3 _`, pick one via the choice supply. -/
def select_best_meal (meals : List Meal) (target_calories : ℚ)
    (used_meal_ids : List ℤ) (pick : ℕ) : Option Meal :=
  if meals.isEmpty then none
  else
    let unused_meals := meals.filter fun m => !used_meal_ids.contains m.id
    let candidate_meals := if unused_meals.isEmpty then meals else unused_meals
    let scored_meals := candidate_meals.map fun m =>
      (m, |m.calories - target_calories| / (target_calories + 1))
    let sorted := scored_meals.mergeSort fun a b => decide (a.2 ≤ b.2)
    let top_meals := sorted.take (min 3 sorted.length)
    (top_meals.get? (pick % top_meals.length)).map Prod.fst

/-- One day-plan entry: the filled slots in slot order, plus the day totals. -/
structure DayPlan where
  meals : List (String × Meal)
  total_calories : ℚ
  total_protein : ℚ
  total_carbohydrates : ℚ
  total_fat : ℚ
deriving DecidableEq

/-- One slot of `_plan_single_day`: select a meal, append it to the day and
add its id to the used set (a slot is silently skipped only when selection
returns nothing, i.e. when the bucket is empty). -/
def plan_slot (name : String) (bucket : List Meal) (target : ℚ)
    (st : DayPlan × List ℤ) (pick : ℕ) : DayPlan × List ℤ :=
  match select_best_meal bucket target st.2 pick with
  | none => st
  | some best =>
    (⟨st.1.meals ++ [(name, best)],
      st.1.total_calories + best.calories,
      st.1.total_protein + best.protein,
      st.1.total_carbohydrates + best.carbohydrates,
      st.1.total_fat + best.fat⟩,
      if st.2.contains best.id then st.2 else best.id :: st.2)

/-- `_plan_single_day`: the four slots in `MEAL_CALORIE_DISTRIBUTION` order
(breakfast 25%, lunch 35%, dinner 30%, snack 10% of the daily calories). -/
def plan_single_day (bk : Buckets) (daily_calories : ℚ)
    (used : List ℤ) (choice : ℕ → ℕ) (t : ℕ) : DayPlan × List ℤ :=
  let st0 : DayPlan × List ℤ := (⟨[], 0, 0, 0, 0⟩, used)
  let st1 := plan_slot "breakfast" bk.breakfast (daily_calories * 0.25) st0 (choice (4 * t))
  let st2 := plan_slot "lunch" bk.lunch (daily_calories * 0.35) st1 (choice (4 * t + 1))
  let st3 := plan_slot "dinner" bk.dinner (daily_calories * 0.30) st2 (choice (4 * t + 2))
  plan_slot "snack" bk.snack (daily_calories * 0.10) st3 (choice (4 * t + 3))

/-- The per-day loop of `generate_weekly_plan`, threading the used-meal set;
`t` numbers the days so each selection draws a fresh choice. -/
def plan_days (bk : Buckets) (daily_calories : ℚ) (choice : ℕ → ℕ) :
    ℕ → ℕ → List ℤ → List DayPlan × List ℤ
  | 0, _, used => ([], used)
  | n + 1, t, used =>
    let st := plan_single_day bk daily_calories used choice t
    let rest := plan_days bk daily_calories choice n (t + 1) st.2
    (st.1 :: rest.1, rest.2)

/-- The failure response of `generate_weekly_plan` (`success: False` with
`meals_available`). -/
inductive PlannerError
  | insufficient (meals_available : ℕ)
deriving DecidableEq

/-- The success payload of `generate_weekly_plan` that the claims read:
the day entries and the count of distinct meals used (the numerator of
`variety_score`). -/
structure WeeklyPlan where
  days : ℕ
  weekly_plan : List DayPlan
  variety_count : ℕ
deriving DecidableEq

/-- `generate_weekly_plan` for an already-fetched user: hard-filter the
catalogue, fail when fewer than 10 eligible meals remain, otherwise plan
`days` days against `user.daily_calorie_target or 2000` calories. -/
def generate_weekly_plan (user : UserProfile) (preference : Option Preference)
    (all_meals : List Meal) (days : ℕ) (choice : ℕ → ℕ) :
    Except PlannerError WeeklyPlan :=
  let eligible_meals := filter_by_preferences all_meals preference
  if eligible_meals.length < 10 then .error (.insufficient eligible_meals.length)
  else
    let meals_by_category := categorize_meals eligible_meals
    let daily_calories := orDefault user.daily_calorie_target 2000
    let result := plan_days meals_by_category daily_calories choice days 0 []
    .ok ⟨days, result.1, result.2.length⟩

/-- A copy of `mealPlain` with a fresh id, for bulk fixtures. -/
def mkSimpleMeal (i : ℤ) : Meal := { mealPlain with id := i }

/-- Ten eligible meals, the planner's minimum catalogue. -/
def tenMeals : List Meal :=
  [mkSimpleMeal 1, mkSimpleMeal 2, mkSimpleMeal 3, mkSimpleMeal 4, mkSimpleMeal 5,
    mkSimpleMeal 6, mkSimpleMeal 7, mkSimpleMeal 8, mkSimpleMeal 9, mkSimpleMeal 10]

/-- Evaluation rule for `pyRound` when the scaled value sits strictly below
the halfway point above `n`. -/
theorem pyRound_down (d : ℕ) (q : ℚ) (n : ℤ) (h₁ : (n : ℚ) ≤ q * 10 ^ d)
    (h₂ : q * 10 ^ d < n + 1/2) : pyRound d q = n / 10 ^ d := by
  have hfl : ⌊q * 10 ^ d⌋ = n := by
    rw [Int.floor_eq_iff]
    exact ⟨h₁, by linarith⟩
  rw [pyRound, roundHalfEven]
  rw [hfl]
  have hlt : q * 10 ^ d - (n : ℚ) < 1/2 := by linarith
  simp only [hlt, if_pos]

/-- Evaluation rule for `pyRound` when the scaled value sits strictly above
the halfway point above `n`. -/
theorem pyRound_up (d : ℕ) (q : ℚ) (n : ℤ) (h₁ : (n : ℚ) + 1/2 < q * 10 ^ d)
    (h₂ : q * 10 ^ d < n + 1) : pyRound d q = (n + 1) / 10 ^ d := by
  have hfl : ⌊q * 10 ^ d⌋ = n := by
    rw [Int.floor_eq_iff]
    exact ⟨by linarith, h₂⟩
  rw [pyRound, roundHalfEven]
  rw [hfl]
  have h₃ : ¬ (q * 10 ^ d - (n : ℚ) < 1/2) := by linarith
  have h₄ : 1/2 < q * 10 ^ d - (n : ℚ) := by linarith
  simp only [h₃, h₄, if_neg, if_pos, not_false_iff]
  push_cast
  ring

/-- C6 counterexample: on the claimed input the code's BMR is 1648.75
(the Mifflin-St Jeor value), not the claimed 1727.5. -/
theorem C6_counterexample_bmr :
    calculate_bmr 70 175 30 "male" = Except.ok 1648.75 ∧ (1648.75 : ℚ) ≠ 1727.5 := by
  constructor
  · rw [calculate_bmr, show pyLower "male" = "male" from rfl]
    norm_num
  · norm_num

/-- C6 (amended): for weight 70 kg, height 175 cm, age 30, male,
moderately_active, maintenance, the chained calculators give
bmr = 1648.75, tdee = 2555.5625, calorie_target = 2555.5625, and macro
targets protein 191.67 g, carbohydrates 287.5 g, fat 70.99 g. -/
theorem C6_amended_chain :
    calculate_bmr 70 175 30 "male" = Except.ok 1648.75 ∧
    calculate_tdee 1648.75 "moderately_active" = 2555.5625 ∧
    calculate_calorie_target 2555.5625 "maintenance" = 2555.5625 ∧
    calculate_macro_targets 2555.5625 "maintenance" none none none =
      { protein := 191.67, carbohydrates := 287.5, fat := 70.99 } := by
  refine ⟨C6_counterexample_bmr.1, ?_, ?_, ?_⟩
  · rw [calculate_tdee, show pyLower "moderately_active" = "moderately_active" from rfl,
      activity_multiplier]
    simp only [String.reduceEq]
    norm_num
  · rw [calculate_calorie_target, show pyLower "maintenance" = "maintenance" from rfl,
      goal_adjustment]
    simp only [String.reduceEq]
    norm_num
  · rw [calculate_macro_targets, show pyLower "maintenance" = "maintenance" from rfl]
    simp only [String.reduceEq]
    norm_num [truthyQ, MacroTargets.mk.injEq]
    refine ⟨?_, ?_, ?_⟩
    · rw [pyRound_up 2 _ 19166 (by norm_num) (by norm_num)]
      norm_num
    · rw [pyRound_down 2 _ 28750 (by norm_num) (by norm_num)]
      norm_num
    · rw [pyRound_up 2 _ 7098 (by norm_num) (by norm_num)]
      norm_num

/-- C1: if the preference requires any of the 7 dietary flags and the meal
lacks that flag, `_calculate_meal_score` returns exactly 0, regardless of the
user, the preference's other fields, the consumption history and today's
totals. -/
theorem C1_hard_filter_zero (meal : Meal) (user : UserProfile) (p : Preference)
    (user_meals : List UserMealEntry) (today : DailyNutrition)
    (h : (p.vegetarian = true ∧ meal.is_vegetarian = false) ∨
         (p.vegan = true ∧ meal.is_vegan = false) ∨
         (p.gluten_free = true ∧ meal.is_gluten_free = false) ∨
         (p.dairy_free = true ∧ meal.is_dairy_free = false) ∨
         (p.nut_free = true ∧ meal.is_nut_free = false) ∨
         (p.halal = true ∧ meal.is_halal = false) ∨
         (p.kosher = true ∧ meal.is_kosher = false)) :
    calculate_meal_score meal user (some p) user_meals today = 0 := by
  rcases h with ⟨h1, h2⟩ | ⟨h1, h2⟩ | ⟨h1, h2⟩ | ⟨h1, h2⟩ | ⟨h1, h2⟩ | ⟨h1, h2⟩ | ⟨h1, h2⟩ <;>
    simp [calculate_meal_score, h1, h2]

/-- Witness for C1: the vegan filter zeroes out a non-vegan meal. -/
theorem C1_hard_filter_zero_witness :
    (prefVegan.vegan = true ∧ mealPlain.is_vegan = false) ∧
      calculate_meal_score mealPlain userBare (some prefVegan) [] ⟨0, 0⟩ = 0 :=
  ⟨⟨rfl, rfl⟩,
    C1_hard_filter_zero mealPlain userBare prefVegan [] ⟨0, 0⟩ (Or.inr (Or.inl ⟨rfl, rfl⟩))⟩

/-- C7: for every trained model, if user `u` has a stored rating `r` for meal
`m`, `predict_rating` returns exactly that rating (round-trip law). -/
theorem C7_predict_returns_stored (M : CFModel) (_hT : M.is_trained = true)
    (u : String) (m : ℤ) (ur : List (ℤ × ℚ)) (r : ℚ)
    (hu : dictGet? M.user_ratings u = some ur) (hr : dictGet? ur m = some r) :
    predict_rating M u m = (r : ℝ) := by
  simp [predict_rating, dictHas, hu, hr]

/-- Witness for C7: a one-interaction trained model returns the stored rating
4 verbatim. -/
theorem C7_predict_returns_stored_witness :
    (cf_train [⟨"1", 1, 4⟩]).is_trained = true ∧
    dictGet? (cf_train [⟨"1", 1, 4⟩]).user_ratings "1" = some [(1, 4)] ∧
    dictGet? [((1 : ℤ), (4 : ℚ))] 1 = some 4 ∧
    predict_rating (cf_train [⟨"1", 1, 4⟩]) "1" 1 = ((4 : ℚ) : ℝ) :=
  ⟨rfl, rfl, rfl, C7_predict_returns_stored _ rfl "1" 1 [(1, 4)] 4 rfl rfl⟩

/-- C2 (amended): `predict_rating` stays in `[1, 5]` provided every stored
rating and every popularity-table value lies in `[1, 5]`; the verbatim,
weighted-average and 3.0-default branches keep the value there on their own,
but the popularity fallback returns the table value unclamped (see the
counterexample for a trained model whose popularity exceeds 5). -/
theorem C2_amended_predict_range (M : CFModel)
    (hstored : ∀ u ur, dictGet? M.user_ratings u = some ur →
      ∀ m r, dictGet? ur m = some r → 1 ≤ r ∧ r ≤ 5)
    (hpop : ∀ m p, dictGet? M.meal_popularity m = some p → 1 ≤ p ∧ p ≤ 5)
    (u : String) (m : ℤ) :
    1 ≤ predict_rating M u m ∧ predict_rating M u m ≤ 5 := by
  have hpopD : ∀ m' : ℤ, 1 ≤ (dictGet? M.meal_popularity m').getD 3 ∧
      (dictGet? M.meal_popularity m').getD 3 ≤ 5 := by
    intro m'
    cases hh : dictGet? M.meal_popularity m' with
    | none => simp; norm_num
    | some p => simpa using hpop m' p hh
  rw [predict_rating]
  by_cases h : (dictHas M.user_ratings u &&
      dictHas ((dictGet? M.user_ratings u).getD []) m) = true
  · rw [if_pos h]
    have h' : dictHas M.user_ratings u = true ∧
        dictHas ((dictGet? M.user_ratings u).getD []) m = true := by simpa using h
    obtain ⟨h1, h2⟩ := h'
    rw [dictHas] at h1 h2
    obtain ⟨ur, hur⟩ := Option.isSome_iff_exists.mp h1
    rw [hur] at h2 ⊢
    simp only [Option.getD_some] at h2 ⊢
    obtain ⟨r, hrr⟩ := Option.isSome_iff_exists.mp h2
    rw [hrr]
    simp only [Option.getD_some]
    have := hstored u ur hur m r hrr
    exact ⟨by exact_mod_cast this.1, by exact_mod_cast this.2⟩
  · rw [if_neg h]
    simp only [predict_fallback]
    split
    · exact hpopD m
    · split
      · refine ⟨le_max_left _ _, ?_⟩
        exact max_le (by norm_num) (min_le_left _ _)
      · exact hpopD m

/-- Witness for C2 (amended): the empty trained model satisfies both range
hypotheses vacuously and predicts the neutral 3.0. -/
theorem C2_amended_predict_range_witness :
    (∀ u ur, dictGet? (CFModel.mk [] [] [] true).user_ratings u = some ur →
      ∀ m r, dictGet? ur m = some r → 1 ≤ r ∧ r ≤ 5) ∧
    (∀ m p, dictGet? (CFModel.mk [] [] [] true).meal_popularity m = some p →
      1 ≤ p ∧ p ≤ 5) ∧
    (1 ≤ predict_rating (CFModel.mk [] [] [] true) "9" 1 ∧
      predict_rating (CFModel.mk [] [] [] true) "9" 1 ≤ 5) := by
  have h1 : ∀ u ur, dictGet? (CFModel.mk [] [] [] true).user_ratings u = some ur →
      ∀ m r, dictGet? ur m = some r → 1 ≤ r ∧ r ≤ 5 := by
    intro u ur h
    simp [dictGet?] at h
  have h2 : ∀ m p, dictGet? (CFModel.mk [] [] [] true).meal_popularity m = some p →
      1 ≤ p ∧ p ≤ 5 := by
    intro m p h
    simp [dictGet?] at h
  exact ⟨h1, h2, C2_amended_predict_range _ h1 h2 "9" 1⟩

/-- C2 counterexample: after genuine training on three 5-star ratings of meal
1, predicting that meal for an unknown user returns the **unclamped**
popularity score `5 * log 4 ≈ 6.93 > 5`, so `predict_rating` is not always in
`[1, 5]`. -/
theorem C2_counterexample_popularity_overflow :
    (cf_train threeFives).is_trained = true ∧
    5 < predict_rating (cf_train threeFives) "99" 1 := by
  refine ⟨rfl, ?_⟩
  have hcond : (dictHas (cf_train threeFives).user_ratings "99" &&
      dictHas ((dictGet? (cf_train threeFives).user_ratings "99").getD []) 1) = false := rfl
  have hempty : find_similar_users (cf_train threeFives) "99" 20 = [] := rfl
  rw [predict_rating, hcond]
  simp only [Bool.false_eq_true, if_false, predict_fallback, hempty, List.isEmpty_nil,
    if_true]
  have hpop : (cf_train threeFives).meal_popularity
      = [(1, (((15 : ℚ) / 3 : ℚ) : ℝ) * Real.log ((3 : ℝ) + 1))] := by
    simp [cf_train, calculate_popularity_scores, load_interactions, threeFives,
      dictInsert, dictGet?]
    norm_num
  rw [hpop]
  simp only [dictGet?]
  norm_num
  have hlog : (1 : ℝ) < Real.log 4 :=
    (Real.lt_log_iff_exp_lt (by norm_num)).mpr
      (lt_trans Real.exp_one_lt_d9 (by norm_num))
  nlinarith [hlog]

/-- C8: `cosine_similarity` returns 0 when the rated-meal sets are disjoint or
either user's full-vector magnitude is 0, and otherwise returns the sum of
rating products over the intersection divided by the product of the two
full-vector Euclidean norms. -/
theorem C8_cosine_similarity_form (u1 u2 : List (ℤ × ℚ)) :
    (spec_common u1 u2 = [] → cosine_similarity u1 u2 = 0) ∧
    (spec_magnitude u1 = 0 ∨ spec_magnitude u2 = 0 → cosine_similarity u1 u2 = 0) ∧
    (spec_common u1 u2 ≠ [] → ¬(spec_magnitude u1 = 0 ∨ spec_magnitude u2 = 0) →
      cosine_similarity u1 u2 =
        ((spec_dot u1 u2 : ℚ) : ℝ) / (spec_magnitude u1 * spec_magnitude u2)) := by
  refine ⟨?_, ?_, ?_⟩
  · intro h
    rw [cosine_similarity]
    rw [show (u1.map Prod.fst).filter (fun m => dictHas u2 m) = spec_common u1 u2 from rfl]
    rw [if_pos h]
  · intro h
    rw [cosine_similarity]
    rw [show (u1.map Prod.fst).filter (fun m => dictHas u2 m) = spec_common u1 u2 from rfl]
    by_cases hc : spec_common u1 u2 = []
    · rw [if_pos hc]
    · rw [if_neg hc]
      rw [show Real.sqrt (((u1.map fun p => p.2 ^ 2).sum : ℚ) : ℝ) = spec_magnitude u1 from rfl]
      rw [show Real.sqrt (((u2.map fun p => p.2 ^ 2).sum : ℚ) : ℝ) = spec_magnitude u2 from rfl]
      rw [if_pos h]
  · intro hc hm
    rw [cosine_similarity]
    rw [show (u1.map Prod.fst).filter (fun m => dictHas u2 m) = spec_common u1 u2 from rfl]
    rw [if_neg hc]
    rw [show Real.sqrt (((u1.map fun p => p.2 ^ 2).sum : ℚ) : ℝ) = spec_magnitude u1 from rfl]
    rw [show Real.sqrt (((u2.map fun p => p.2 ^ 2).sum : ℚ) : ℝ) = spec_magnitude u2 from rfl]
    rw [if_neg hm]
    rfl

/-- Witness for C8: overlapping vectors `[(1,1),(2,2)]`, `[(1,3)]` with
nonzero magnitudes hit the quotient branch. -/
theorem C8_cosine_similarity_form_witness :
    spec_common [((1 : ℤ), (1 : ℚ)), (2, 2)] [(1, 3)] ≠ [] ∧
    ¬(spec_magnitude [((1 : ℤ), (1 : ℚ)), (2, 2)] = 0 ∨
        spec_magnitude [((1 : ℤ), (3 : ℚ))] = 0) ∧
    cosine_similarity [((1 : ℤ), (1 : ℚ)), (2, 2)] [(1, 3)] =
      ((spec_dot [((1 : ℤ), (1 : ℚ)), (2, 2)] [(1, 3)] : ℚ) : ℝ) /
        (spec_magnitude [((1 : ℤ), (1 : ℚ)), (2, 2)] * spec_magnitude [((1 : ℤ), (3 : ℚ))]) := by
  have h1 : spec_common [((1 : ℤ), (1 : ℚ)), (2, 2)] [(1, 3)] ≠ [] := by
    simp [spec_common, dictHas, dictGet?]
  have h2 : ¬(spec_magnitude [((1 : ℤ), (1 : ℚ)), (2, 2)] = 0 ∨
      spec_magnitude [((1 : ℤ), (3 : ℚ))] = 0) := by
    push_neg
    constructor
    · rw [spec_magnitude, Real.sqrt_ne_zero']
      norm_num
    · rw [spec_magnitude, Real.sqrt_ne_zero']
      norm_num
  exact ⟨h1, h2, (C8_cosine_similarity_form _ _).2.2 h1 h2⟩

/-- C3 (amended): the hybrid loop drops every candidate whose content score is
exactly 0; a surviving meal's hybrid score is `0.6*ml_norm + 0.4*content`
whenever an ML prediction exists for it **and its normalised value
`(clamp(raw,1,5)-1)/4` is strictly positive**, and `content` alone when no
prediction exists or the normalised value is 0; results are sorted descending
by hybrid score and truncated to `limit`. -/
theorem C3_amended_hybrid (user : UserProfile) (preference : Option Preference)
    (user_meals : List UserMealEntry) (today : DailyNutrition)
    (all_meals : List Meal) (preds : List (ℤ × ℚ)) (limit : ℕ) :
    (∀ r ∈ ml_ranked user preference user_meals today all_meals preds limit,
      r.content_score = calculate_meal_score r.meal user preference user_meals today ∧
      r.content_score ≠ 0 ∧
      (∀ raw, dictGet? preds r.meal.id = some raw →
        (0 < (max 1 (min 5 raw) - 1) / 4 →
          r.hybrid_score = ((max 1 (min 5 raw) - 1) / 4) * 0.6 + r.content_score * 0.4) ∧
        ((max 1 (min 5 raw) - 1) / 4 ≤ 0 → r.hybrid_score = r.content_score)) ∧
      (dictGet? preds r.meal.id = none → r.hybrid_score = r.content_score)) ∧
    List.Pairwise (fun a b : ScoredMeal => b.hybrid_score ≤ a.hybrid_score)
      (ml_ranked user preference user_meals today all_meals preds limit) ∧
    (ml_ranked user preference user_meals today all_meals preds limit).length ≤ limit := by
  refine ⟨?_, ?_, by rw [ml_ranked]; exact List.length_take_le _ _⟩
  · intro r hr
    rw [ml_ranked] at hr
    have hr1 : r ∈ ml_scored_meals user preference user_meals today all_meals preds :=
      List.mem_mergeSort.mp (List.mem_of_mem_take hr)
    rw [ml_scored_meals] at hr1
    obtain ⟨m, _hm, hf⟩ := List.mem_filterMap.mp hr1
    dsimp only at hf
    by_cases hc : calculate_meal_score m user preference user_meals today = 0
    · rw [if_pos hc] at hf
      cases hf
    · rw [if_neg hc] at hf
      cases Option.some.inj hf
      refine ⟨rfl, hc, ?_, ?_⟩
      · intro raw hraw
        constructor
        · intro hpos
          dsimp only
          rw [hraw]
          dsimp only
          rw [if_pos hpos]
        · intro hnonpos
          dsimp only
          rw [hraw]
          dsimp only
          rw [if_neg (by exact not_lt.mpr hnonpos)]
      · intro hnone
        dsimp only
        rw [hnone]
        dsimp only
        rw [if_neg (by norm_num)]
  · rw [ml_ranked]
    have htrans : ∀ a b c : ScoredMeal,
        decide (b.hybrid_score ≤ a.hybrid_score) = true →
        decide (c.hybrid_score ≤ b.hybrid_score) = true →
        decide (c.hybrid_score ≤ a.hybrid_score) = true := by
      intro a b c hab hbc
      simp only [decide_eq_true_eq] at hab hbc ⊢
      exact le_trans hbc hab
    have htotal : ∀ a b : ScoredMeal,
        (decide (b.hybrid_score ≤ a.hybrid_score) ||
          decide (a.hybrid_score ≤ b.hybrid_score)) = true := by
      intro a b
      simp only [Bool.or_eq_true, decide_eq_true_eq]
      exact le_total _ _
    have hs := List.sorted_mergeSort htrans htotal
      (ml_scored_meals user preference user_meals today all_meals preds)
    refine List.Pairwise.sublist (List.take_sublist _ _) (hs.imp ?_)
    intro a b h
    exact of_decide_eq_true h

/-- Concrete evaluation: `mealPlain`'s content score for the bare user is 0.1
(only the protein-density bonus fires). -/
theorem mealPlain_content_score :
    calculate_meal_score mealPlain userBare none [] ⟨0, 0⟩ = 0.1 := by
  simp only [calculate_meal_score, meal_score_body, mealPlain, userBare, truthyQ]
  norm_num
  rw [pyRound_down 3 _ 100 (by norm_num) (by norm_num)]
  norm_num

/-- Concrete evaluation: with an empty prediction dict, ranking `[mealPlain]`
returns the single scored entry `(mealPlain, 0.1, 0, 0.1)`. -/
theorem ml_ranked_mealPlain_empty :
    ml_ranked userBare none [] ⟨0, 0⟩ [mealPlain] [] 10 =
      [⟨mealPlain, 0.1, 0, 0.1⟩] := by
  rw [ml_ranked, ml_scored_meals]
  simp only [List.filterMap_cons, List.filterMap_nil]
  rw [mealPlain_content_score]
  simp only [dictGet?]
  norm_num [ScoredMeal.mk.injEq]

/-- Witness for C3 (amended): the single surviving meal with no ML prediction
keeps its content score as hybrid score. -/
theorem C3_amended_hybrid_witness :
    (⟨mealPlain, 0.1, 0, 0.1⟩ : ScoredMeal) ∈
      ml_ranked userBare none [] ⟨0, 0⟩ [mealPlain] [] 10 ∧
    dictGet? ([] : List (ℤ × ℚ)) mealPlain.id = none ∧
    (0.1 : ℚ) = 0.1 := by
  have hmem : (⟨mealPlain, 0.1, 0, 0.1⟩ : ScoredMeal) ∈
      ml_ranked userBare none [] ⟨0, 0⟩ [mealPlain] [] 10 := by
    rw [ml_ranked_mealPlain_empty]
    exact List.mem_singleton.mpr rfl
  exact ⟨hmem, rfl,
    ((C3_amended_hybrid userBare none [] ⟨0, 0⟩ [mealPlain] [] 10).1 _ hmem).2.2.2 rfl⟩

/-- C3 counterexample: with a stored ML prediction of exactly 1.0 for
`mealPlain` (normalised value 0), the hybrid score equals the content score
0.1, not the claimed `0.6*ml_norm + 0.4*content = 0.04` — so "whenever an ML
prediction exists" is wrong as stated. -/
theorem C3_counterexample_zero_norm :
    dictGet? [((1 : ℤ), (1 : ℚ))] mealPlain.id = some 1 ∧
    ml_ranked userBare none [] ⟨0, 0⟩ [mealPlain] [(1, 1)] 10 =
      [⟨mealPlain, 0.1, 0, 0.1⟩] ∧
    ((max 1 (min 5 (1 : ℚ)) - 1) / 4) * 0.6 + (0.1 : ℚ) * 0.4 ≠ 0.1 := by
  refine ⟨rfl, ?_, by norm_num⟩
  rw [ml_ranked, ml_scored_meals]
  simp only [List.filterMap_cons, List.filterMap_nil]
  rw [mealPlain_content_score]
  simp only [dictGet?, show mealPlain.id = 1 from rfl]
  norm_num [ScoredMeal.mk.injEq]

/-- C9: every search result has at least `min_ingredients_match` matched
tokens; its composite score is `0.6*similarity + 0.3*(average_rating-1)/4 +
0.1*min(matched/len(query), 1)`; results are sorted descending by composite
score and truncated to `limit`.  Holds for every similarity function. -/
theorem C9_search_contract (sim : List String → RecipeEntry → ℚ)
    (entries : List RecipeEntry) (ingredients : List String) (limit min_match : ℕ) :
    (∀ r ∈ find_recipes_by_ingredients sim entries ingredients limit min_match,
      min_match ≤ r.matched_ingredients ∧
      r.score = r.similarity * 0.6 + ((r.average_rating - 1) / 4) * 0.3 +
        min ((r.matched_ingredients : ℚ) / (ingredients.length : ℚ)) 1 * 0.1) ∧
    List.Pairwise (fun a b : SearchResult => b.score ≤ a.score)
      (find_recipes_by_ingredients sim entries ingredients limit min_match) ∧
    (find_recipes_by_ingredients sim entries ingredients limit min_match).length ≤ limit := by
  by_cases hq : ingredients.isEmpty
  · rw [find_recipes_by_ingredients, if_pos hq]
    refine ⟨?_, List.Pairwise.nil, by simp⟩
    intro r hr
    cases hr
  · rw [find_recipes_by_ingredients, if_neg hq]
    refine ⟨?_, ?_, List.length_take_le _ _⟩
    · intro r hr
      have hr1 := List.mem_mergeSort.mp (List.mem_of_mem_take hr)
      obtain ⟨e, _he, hf⟩ := List.mem_filterMap.mp hr1
      by_cases hc : ((ingredients.map fun i => pyLower (pyStrip i)).filter fun ing =>
          e.ingredients.any fun stored_ing => pyIn ing stored_ing).length < min_match
      · rw [if_pos hc] at hf
        cases hf
      · rw [if_neg hc] at hf
        cases Option.some.inj hf
        refine ⟨le_of_not_lt hc, ?_⟩
        dsimp only
        rw [List.length_map]
    · have htrans : ∀ a b c : SearchResult,
          decide (b.score ≤ a.score) = true → decide (c.score ≤ b.score) = true →
          decide (c.score ≤ a.score) = true := by
        intro a b c hab hbc
        simp only [decide_eq_true_eq] at hab hbc ⊢
        exact le_trans hbc hab
      have htotal : ∀ a b : SearchResult,
          (decide (b.score ≤ a.score) || decide (a.score ≤ b.score)) = true := by
        intro a b
        simp only [Bool.or_eq_true, decide_eq_true_eq]
        exact le_total _ _
      have hs := List.sorted_mergeSort htrans htotal
        ((entries.filterMap fun meal_data =>
          let similarity := sim (ingredients.map fun i => pyLower (pyStrip i)) meal_data
          let matched_ingredients := ((ingredients.map fun i => pyLower (pyStrip i)).filter
            fun ing => meal_data.ingredients.any fun stored_ing => pyIn ing stored_ing).length
          if matched_ingredients < min_match then none
          else
            let rating_score := (meal_data.average_rating - 1) / 4
            let match_boost := min ((matched_ingredients : ℚ) /
              ((ingredients.map fun i => pyLower (pyStrip i)).length : ℚ)) 1
            some ⟨meal_data.meal, similarity, matched_ingredients,
              meal_data.ingredients.length,
              similarity * 0.6 + rating_score * 0.3 + match_boost * 0.1,
              meal_data.average_rating, meal_data.rating_count⟩))
      refine List.Pairwise.sublist (List.take_sublist _ _) (hs.imp ?_)
      intro a b h
      exact of_decide_eq_true h

/-- Concrete evaluation of the trained entry for `mealPlain` (unrated, so the
2.5 default rating is recorded). -/
theorem recipe_entry_mealPlain :
    recipe_entry_of_meal mealPlain =
      ⟨1, "Chicken Bowl", ["chicken", "rice"], "chicken rice", some "lunch",
        100, 20, 2.5, 0, mealPlain⟩ := by
  rw [recipe_entry_of_meal]
  norm_num [mealPlain, RecipeEntry.mk.injEq]
  exact ⟨rfl, rfl⟩

/-- Concrete evaluation: searching the one-entry index for `["chicken"]`. -/
theorem find_recipes_chicken_eval :
    find_recipes_by_ingredients (fun _ _ => 0) [recipe_entry_of_meal mealPlain]
      ["chicken"] 1 1 = [⟨mealPlain, 0, 1, 2, 0.2125, 2.5, 0⟩] := by
  rw [find_recipes_by_ingredients, recipe_entry_mealPlain]
  simp only [show (["chicken"] : List String).isEmpty = false from rfl, Bool.false_eq_true,
    if_false, List.map_cons, List.map_nil,
    show pyLower (pyStrip "chicken") = "chicken" from rfl,
    List.filterMap_cons, List.filterMap_nil,
    show pyIn "chicken" "chicken" = true from rfl,
    show pyIn "chicken" "rice" = false from rfl]
  norm_num [List.filter, SearchResult.mk.injEq,
    show pyIn "chicken" "chicken" = true from rfl,
    show pyIn "chicken" "rice" = false from rfl]

/-- Witness for C9: the single result of a concrete search satisfies the
match-count bound and the composite-score formula. -/
theorem C9_search_contract_witness :
    (⟨mealPlain, 0, 1, 2, 0.2125, 2.5, 0⟩ : SearchResult) ∈
      find_recipes_by_ingredients (fun _ _ => 0) [recipe_entry_of_meal mealPlain]
        ["chicken"] 1 1 ∧
    (1 ≤ (⟨mealPlain, 0, 1, 2, 0.2125, 2.5, 0⟩ : SearchResult).matched_ingredients ∧
      (⟨mealPlain, 0, 1, 2, 0.2125, 2.5, 0⟩ : SearchResult).score =
        (⟨mealPlain, 0, 1, 2, 0.2125, 2.5, 0⟩ : SearchResult).similarity * 0.6 +
        (((⟨mealPlain, 0, 1, 2, 0.2125, 2.5, 0⟩ : SearchResult).average_rating - 1) / 4) * 0.3 +
        min (((⟨mealPlain, 0, 1, 2, 0.2125, 2.5, 0⟩ : SearchResult).matched_ingredients : ℚ) /
          ((["chicken"] : List String).length : ℚ)) 1 * 0.1) := by
  have hmem : (⟨mealPlain, 0, 1, 2, 0.2125, 2.5, 0⟩ : SearchResult) ∈
      find_recipes_by_ingredients (fun _ _ => 0) [recipe_entry_of_meal mealPlain]
        ["chicken"] 1 1 := by
    rw [find_recipes_chicken_eval]
    exact List.mem_singleton.mpr rfl
  exact ⟨hmem,
    (C9_search_contract (fun _ _ => 0) [recipe_entry_of_meal mealPlain]
      ["chicken"] 1 1).1 _ hmem⟩

/-- C10: training records a 2.5 substitute rating for every meal whose stored
average rating is not strictly positive, so the `rating_score` component of
the search composite, `(average_rating - 1) / 4`, is 0.375 for such a meal
rather than the -0.25 its stored rating 0 would give. -/
theorem C10_unrated_default (all_meals : List Meal) (entries : List RecipeEntry)
    (htrain : ai_train_entries all_meals = some entries) :
    ∀ e ∈ entries, e.meal.average_rating ≤ 0 →
      e.average_rating = 2.5 ∧ (e.average_rating - 1) / 4 = 0.375 ∧
      (e.meal.average_rating = 0 → (e.meal.average_rating - 1) / 4 = -0.25) := by
  intro e he hle
  rw [ai_train_entries] at htrain
  by_cases hlen : (meals_with_ingredients all_meals).length < 2
  · rw [if_pos hlen] at htrain
    cases htrain
  · rw [if_neg hlen] at htrain
    cases Option.some.inj htrain
    obtain ⟨m, _hm, hme⟩ := List.mem_map.mp he
    subst hme
    rw [show (recipe_entry_of_meal m).meal = m from rfl] at hle ⊢
    rw [show (recipe_entry_of_meal m).average_rating =
        (if m.average_rating > 0 then m.average_rating else 2.5) from rfl]
    rw [if_neg (not_lt.mpr hle)]
    refine ⟨rfl, by norm_num, ?_⟩
    intro h0
    rw [h0]
    norm_num

/-- Witness for C10: training on `[mealPlain, mealTwo]` (both unrated)
records the 2.5 default for `mealPlain`. -/
theorem C10_unrated_default_witness :
    ai_train_entries [mealPlain, mealTwo] =
      some [recipe_entry_of_meal mealPlain, recipe_entry_of_meal mealTwo] ∧
    recipe_entry_of_meal mealPlain ∈
      [recipe_entry_of_meal mealPlain, recipe_entry_of_meal mealTwo] ∧
    (recipe_entry_of_meal mealPlain).meal.average_rating ≤ 0 ∧
    ((recipe_entry_of_meal mealPlain).average_rating = 2.5 ∧
      ((recipe_entry_of_meal mealPlain).average_rating - 1) / 4 = 0.375 ∧
      ((recipe_entry_of_meal mealPlain).meal.average_rating = 0 →
        ((recipe_entry_of_meal mealPlain).meal.average_rating - 1) / 4 = -0.25)) := by
  have h0 : (recipe_entry_of_meal mealPlain).meal.average_rating ≤ 0 := by
    norm_num [recipe_entry_of_meal, mealPlain]
  exact ⟨rfl, List.mem_cons_self _ _, h0,
    C10_unrated_default [mealPlain, mealTwo] _ rfl _ (List.mem_cons_self _ _) h0⟩

/-- Upserting `(u, m)` into a `MealRating` table holding at most one row for
that pair leaves that pair's rows exactly `[⟨u, m, r, rev⟩]`. -/
theorem meal_rating_upsert_unique (rows : List MealRatingRow) (u m : ℤ)
    (r : ℚ) (rev : Option String)
    (h : (meal_rating_rows_for rows u m).length ≤ 1) :
    meal_rating_rows_for (meal_rating_upsert rows u m r rev) u m = [⟨u, m, r, rev⟩] := by
  induction rows with
  | nil =>
    simp [meal_rating_upsert, meal_rating_rows_for]
  | cons row rest ih =>
    by_cases hm : row.user_id = u ∧ row.meal_id = m
    · obtain ⟨hu, hmm⟩ := hm
      have hhead : meal_rating_rows_for (row :: rest) u m =
          row :: meal_rating_rows_for rest u m := by
        simp only [meal_rating_rows_for]
        rw [if_pos ⟨hu, hmm⟩]
      rw [hhead, List.length_cons] at h
      have hrest : meal_rating_rows_for rest u m = [] :=
        List.length_eq_zero.mp (by omega)
      simp only [meal_rating_upsert]
      rw [if_pos (⟨hu, hmm⟩ : row.user_id = u ∧ row.meal_id = m)]
      simp only [meal_rating_rows_for]
      rw [if_pos (⟨hu, hmm⟩ :
        (⟨row.user_id, row.meal_id, r, rev⟩ : MealRatingRow).user_id = u ∧
        (⟨row.user_id, row.meal_id, r, rev⟩ : MealRatingRow).meal_id = m)]
      rw [hrest, hu, hmm]
    · have hhead : meal_rating_rows_for (row :: rest) u m =
          meal_rating_rows_for rest u m := by
        simp only [meal_rating_rows_for]
        rw [if_neg hm]
      rw [hhead] at h
      simp only [meal_rating_upsert]
      rw [if_neg hm]
      simp only [meal_rating_rows_for]
      rw [if_neg hm]
      exact ih h

/-- Upserting `(u, m)` into a `RecipeRating` table holding at most one row for
that pair leaves exactly one row for the pair, carrying the new rating, and
the new comment whenever one was supplied. -/
theorem recipe_rating_upsert_unique (rows : List RecipeRatingRow) (rid u m : ℤ)
    (r : ℚ) (c : Option String)
    (h : (recipe_rating_rows_for rows u m).length ≤ 1) :
    ∃ i cm, recipe_rating_rows_for (recipe_rating_upsert rows rid u m r c) u m =
      [⟨i, u, m, r, cm⟩] ∧ (∀ cc, c = some cc → cm = some cc) := by
  induction rows with
  | nil =>
    refine ⟨rid, c, ?_, fun cc hcc => hcc⟩
    simp [recipe_rating_upsert, recipe_rating_rows_for]
  | cons row rest ih =>
    by_cases hm : row.user_id = u ∧ row.meal_id = m
    · obtain ⟨hu, hmm⟩ := hm
      have hhead : recipe_rating_rows_for (row :: rest) u m =
          row :: recipe_rating_rows_for rest u m := by
        simp only [recipe_rating_rows_for]
        rw [if_pos ⟨hu, hmm⟩]
      rw [hhead, List.length_cons] at h
      have hrest : recipe_rating_rows_for rest u m = [] :=
        List.length_eq_zero.mp (by omega)
      cases c with
      | none =>
        refine ⟨row.id, row.comment, ?_, fun cc hcc => by cases hcc⟩
        simp only [recipe_rating_upsert]
        rw [if_pos (⟨hu, hmm⟩ : row.user_id = u ∧ row.meal_id = m)]
        simp only [recipe_rating_rows_for]
        rw [if_pos (⟨hu, hmm⟩ :
          (⟨row.id, row.user_id, row.meal_id, r, row.comment⟩ :
            RecipeRatingRow).user_id = u ∧
          (⟨row.id, row.user_id, row.meal_id, r, row.comment⟩ :
            RecipeRatingRow).meal_id = m)]
        rw [hrest, hu, hmm]
      | some cc0 =>
        refine ⟨row.id, some cc0, ?_, fun cc hcc => by cases hcc; rfl⟩
        simp only [recipe_rating_upsert]
        rw [if_pos (⟨hu, hmm⟩ : row.user_id = u ∧ row.meal_id = m)]
        simp only [recipe_rating_rows_for]
        rw [if_pos (⟨hu, hmm⟩ :
          (⟨row.id, row.user_id, row.meal_id, r, some cc0⟩ :
            RecipeRatingRow).user_id = u ∧
          (⟨row.id, row.user_id, row.meal_id, r, some cc0⟩ :
            RecipeRatingRow).meal_id = m)]
        rw [hrest, hu, hmm]
    · have hhead : recipe_rating_rows_for (row :: rest) u m =
          recipe_rating_rows_for rest u m := by
        simp only [recipe_rating_rows_for]
        rw [if_neg hm]
      rw [hhead] at h
      obtain ⟨i, cm, heq, hcm⟩ := ih h
      refine ⟨i, cm, ?_, hcm⟩
      simp only [recipe_rating_upsert]
      rw [if_neg hm]
      simp only [recipe_rating_rows_for]
      rw [if_neg hm]
      exact heq

/-- With pairwise-distinct meal ids, every meal row carrying the updated id
holds exactly the aggregates `set_meal_agg` wrote. -/
theorem set_meal_agg_mem (meals : List MealAggRow) (mid : ℤ) (avg : ℚ) (cnt : ℕ)
    (hnd : (meals.map (·.id)).Nodup) :
    ∀ mrow ∈ set_meal_agg meals mid avg cnt, mrow.id = mid →
      mrow.average_rating = avg ∧ mrow.rating_count = cnt := by
  induction meals with
  | nil =>
    intro mrow hm
    cases hm
  | cons m0 rest ih =>
    simp only [List.map_cons, List.nodup_cons] at hnd
    obtain ⟨hnotin, hnd'⟩ := hnd
    intro mrow hm hid
    by_cases h0 : m0.id = mid
    · simp only [set_meal_agg, if_pos h0] at hm
      rcases List.mem_cons.mp hm with rfl | hrest
      · exact ⟨rfl, rfl⟩
      · exact absurd (List.mem_map.mpr ⟨mrow, hrest, by rw [hid, h0]⟩) hnotin
    · simp only [set_meal_agg, if_neg h0] at hm
      rcases List.mem_cons.mp hm with rfl | hrest
      · exact absurd hid h0
      · exact ih hnd' mrow hrest hid

/-- C4: a rating upsert with a value outside `[1, 5]` is rejected with a
validation error before any state change, on both rating paths; a successful
upsert leaves exactly one rating row for the `(user, meal)` pair, holding the
new value (and the new text — always for the `MealRating` path, when supplied
for the `RecipeRating` path); and after a recipe-rating upsert or deletion the
meal's stored `average_rating` and `rating_count` equal the average and count
over the meal's live rating rows. -/
theorem C4_rating_pipeline (db : RatingDB) (rows : List MealRatingRow)
    (u m : ℤ) (r : ℚ) (rev c : Option String) :
    (r < 1 ∨ r > 5 →
      create_or_update_rating rows u m r rev = .error "Rating must be between 1 and 5" ∧
      rate_recipe db u m r c = .error "validation error") ∧
    (¬(r < 1 ∨ r > 5) →
      create_or_update_rating rows u m r rev = .ok (meal_rating_upsert rows u m r rev) ∧
      ((meal_rating_rows_for rows u m).length ≤ 1 →
        meal_rating_rows_for (meal_rating_upsert rows u m r rev) u m = [⟨u, m, r, rev⟩])) ∧
    (∀ db', rate_recipe db u m r c = .ok db' →
      ((recipe_rating_rows_for db.recipe_ratings u m).length ≤ 1 →
        ∃ i cm, recipe_rating_rows_for db'.recipe_ratings u m = [⟨i, u, m, r, cm⟩] ∧
          (∀ cc, c = some cc → cm = some cc)) ∧
      ((db.meals.map (·.id)).Nodup →
        ∀ mrow ∈ db'.meals, mrow.id = m →
          mrow.average_rating = meal_avg db'.recipe_ratings m ∧
          mrow.rating_count = (ratings_for_meal db'.recipe_ratings m).length)) ∧
    (∀ rid db' row,
      db.recipe_ratings.find? (fun row => decide (row.id = rid)) = some row →
      recipe_rating_delete db rid = (true, db') →
      (db.meals.map (·.id)).Nodup →
      ∀ mrow ∈ db'.meals, mrow.id = row.meal_id →
        mrow.average_rating = meal_avg db'.recipe_ratings row.meal_id ∧
        mrow.rating_count = (ratings_for_meal db'.recipe_ratings row.meal_id).length) := by
  refine ⟨?_, ?_, ?_, ?_⟩
  · intro h
    exact ⟨by rw [create_or_update_rating, if_pos h], by rw [rate_recipe, if_pos h]⟩
  · intro h
    exact ⟨by rw [create_or_update_rating, if_neg h],
      fun hc => meal_rating_upsert_unique rows u m r rev hc⟩
  · intro db' hok
    rw [rate_recipe] at hok
    by_cases h1 : r < 1 ∨ r > 5
    · rw [if_pos h1] at hok
      cases hok
    · rw [if_neg h1] at hok
      by_cases h2 : (db.meals.find? fun mrow => decide (mrow.id = m)).isNone = true
      · rw [if_pos h2] at hok
        cases hok
      · rw [if_neg h2] at hok
        injection hok with hok'
        subst hok'
        constructor
        · intro hc
          exact recipe_rating_upsert_unique db.recipe_ratings db.next_id u m r c hc
        · intro hnd mrow hm hid
          exact set_meal_agg_mem db.meals m _ _ hnd mrow hm hid
  · intro rid db' row hfind hdel hnd mrow hm hid
    rw [recipe_rating_delete, hfind] at hdel
    injection hdel with hdel1 hdel2
    subst hdel2
    exact set_meal_agg_mem db.meals row.meal_id _ _ hnd mrow hm hid

/-- Witness for C4: rating meal 1 with 3 stars in a database holding meal 1
and no ratings creates one row and stores average 3, count 1. -/
theorem C4_rating_pipeline_witness :
    rate_recipe ⟨[], [⟨1, 0, 0⟩], 1⟩ 1 1 3 none =
      .ok ⟨[⟨1, 1, 1, 3, none⟩], [⟨1, 3, 1⟩], 2⟩ ∧
    (recipe_rating_rows_for ([] : List RecipeRatingRow) 1 1).length ≤ 1 ∧
    (∃ i cm, recipe_rating_rows_for [(⟨1, 1, 1, 3, none⟩ : RecipeRatingRow)] 1 1 =
      [⟨i, 1, 1, 3, cm⟩] ∧ (∀ cc, (none : Option String) = some cc → cm = some cc)) := by
  have hok : rate_recipe ⟨[], [⟨1, 0, 0⟩], 1⟩ 1 1 3 none =
      .ok ⟨[⟨1, 1, 1, 3, none⟩], [⟨1, 3, 1⟩], 2⟩ := by
    rw [rate_recipe]
    norm_num [List.find?, recipe_rating_upsert, update_meal_rating, set_meal_agg,
      meal_avg, ratings_for_meal, RatingDB.mk.injEq, MealAggRow.mk.injEq]
  refine ⟨hok, by norm_num [recipe_rating_rows_for], ?_⟩
  exact ((C4_rating_pipeline ⟨[], [⟨1, 0, 0⟩], 1⟩ [] 1 1 3 none none).2.2.1 _ hok).1
    (by norm_num [recipe_rating_rows_for])

/-- Indexing the best-3 prefix of a sorted nonempty list always succeeds. -/
theorem take_get_isSome {β : Type} (l : List β) (k : ℕ) (h : l ≠ []) :
    ∃ x, (l.take (min 3 l.length)).get? (k % (l.take (min 3 l.length)).length) = some x := by
  have hl : 0 < l.length := List.length_pos.mpr h
  have ht : 0 < (l.take (min 3 l.length)).length := by
    rw [List.length_take]
    omega
  exact ⟨_, List.get?_eq_get (Nat.mod_lt _ ht)⟩

/-- `_select_best_meal` returns a meal whenever its bucket is non-empty. -/
theorem select_best_meal_isSome (meals : List Meal) (target : ℚ)
    (used : List ℤ) (pick : ℕ) (h : meals ≠ []) :
    ∃ best, select_best_meal meals target used pick = some best := by
  simp only [select_best_meal]
  rw [if_neg (fun hc => h (List.isEmpty_iff.mp hc))]
  have hcne : (if (meals.filter fun m => !used.contains m.id).isEmpty then meals
      else meals.filter fun m => !used.contains m.id) ≠ [] := by
    by_cases hu : (meals.filter fun m => !used.contains m.id).isEmpty
    · rw [if_pos hu]
      exact h
    · rw [if_neg hu]
      intro hc
      exact hu (by rw [hc]; rfl)
  have hsne : (((if (meals.filter fun m => !used.contains m.id).isEmpty then meals
      else meals.filter fun m => !used.contains m.id).map fun m =>
        (m, |m.calories - target| / (target + 1))).mergeSort
      fun a b => decide (a.2 ≤ b.2)) ≠ [] := by
    intro hc
    apply hcne
    have hlen := congrArg List.length hc
    rw [List.length_mergeSort, List.length_map] at hlen
    exact List.length_eq_zero.mp hlen
  obtain ⟨x, hx⟩ := take_get_isSome _ pick hsne
  exact ⟨x.1, by rw [hx]; rfl⟩

/-- A slot backed by a non-empty bucket always adds exactly one meal. -/
theorem plan_slot_meals_length (name : String) (bucket : List Meal) (target : ℚ)
    (st : DayPlan × List ℤ) (pick : ℕ) (h : bucket ≠ []) :
    ((plan_slot name bucket target st pick).1).meals.length =
      st.1.meals.length + 1 := by
  obtain ⟨best, hbest⟩ := select_best_meal_isSome bucket target st.2 pick h
  rw [plan_slot, hbest]
  simp

/-- With all four buckets non-empty, a planned day fills all 4 slots. -/
theorem plan_single_day_meals_length (bk : Buckets) (cal : ℚ) (used : List ℤ)
    (choice : ℕ → ℕ) (t : ℕ) (hb : bk.breakfast ≠ []) (hl : bk.lunch ≠ [])
    (hd : bk.dinner ≠ []) (hs : bk.snack ≠ []) :
    ((plan_single_day bk cal used choice t).1).meals.length = 4 := by
  simp only [plan_single_day]
  rw [plan_slot_meals_length _ _ _ _ _ hs, plan_slot_meals_length _ _ _ _ _ hd,
    plan_slot_meals_length _ _ _ _ _ hl, plan_slot_meals_length _ _ _ _ _ hb]
  rfl

/-- With at least one eligible meal, every patched bucket is non-empty. -/
theorem categorize_meals_nonempty (meals : List Meal) (h : meals ≠ []) :
    (categorize_meals meals).breakfast ≠ [] ∧ (categorize_meals meals).lunch ≠ [] ∧
    (categorize_meals meals).dinner ≠ [] ∧ (categorize_meals meals).snack ≠ [] := by
  have htake : meals.take 5 ≠ [] := by
    cases meals with
    | nil => exact absurd rfl h
    | cons a l => simp
  simp only [categorize_meals]
  refine ⟨?_, ?_, ?_, ?_⟩ <;> split_ifs <;> simp_all [List.isEmpty_iff]

/-- The day loop returns one entry per requested day. -/
theorem plan_days_length (bk : Buckets) (cal : ℚ) (choice : ℕ → ℕ) :
    ∀ (n t : ℕ) (used : List ℤ), (plan_days bk cal choice n t used).1.length = n := by
  intro n
  induction n with
  | zero =>
    intro t used
    rfl
  | succ k ih =>
    intro t used
    simp only [plan_days, List.length_cons]
    rw [ih]

/-- With all four buckets non-empty, every planned day has exactly 4 slots. -/
theorem plan_days_slots (bk : Buckets) (cal : ℚ) (choice : ℕ → ℕ)
    (hb : bk.breakfast ≠ []) (hl : bk.lunch ≠ []) (hd : bk.dinner ≠ [])
    (hs : bk.snack ≠ []) :
    ∀ (n t : ℕ) (used : List ℤ), ∀ dp ∈ (plan_days bk cal choice n t used).1,
      dp.meals.length = 4 := by
  intro n
  induction n with
  | zero =>
    intro t used dp hdp
    cases hdp
  | succ k ih =>
    intro t used dp hdp
    simp only [plan_days] at hdp
    rcases List.mem_cons.mp hdp with rfl | hrest
    · exact plan_single_day_meals_length bk cal used choice t hb hl hd hs
    · exact ih (t + 1) _ dp hrest

/-- C5: with fewer than 10 eligible meals the planner fails with the
insufficient-candidates response; otherwise it succeeds with exactly `days`
day entries, each holding at most 4 meal slots — in fact exactly 4, so no
slot is ever lost to an exhausted category bucket.  Holds for every
realisation of the top-3 random pick. -/
theorem C5_planner_contract (user : UserProfile) (preference : Option Preference)
    (all_meals : List Meal) (days : ℕ) (choice : ℕ → ℕ) :
    ((filter_by_preferences all_meals preference).length < 10 →
      generate_weekly_plan user preference all_meals days choice =
        .error (.insufficient (filter_by_preferences all_meals preference).length)) ∧
    (10 ≤ (filter_by_preferences all_meals preference).length →
      ∃ plan, generate_weekly_plan user preference all_meals days choice = .ok plan ∧
        plan.weekly_plan.length = days ∧
        ∀ dp ∈ plan.weekly_plan, dp.meals.length ≤ 4 ∧ dp.meals.length = 4) := by
  constructor
  · intro h
    rw [generate_weekly_plan, if_pos h]
  · intro h
    have hne : filter_by_preferences all_meals preference ≠ [] := by
      intro hc
      rw [hc] at h
      simp at h
    obtain ⟨hb, hl, hd, hs⟩ := categorize_meals_nonempty _ hne
    refine ⟨⟨days,
      (plan_days (categorize_meals (filter_by_preferences all_meals preference))
        (orDefault user.daily_calorie_target 2000) choice days 0 []).1,
      (plan_days (categorize_meals (filter_by_preferences all_meals preference))
        (orDefault user.daily_calorie_target 2000) choice days 0 []).2.length⟩,
      ?_, ?_, ?_⟩
    · rw [generate_weekly_plan, if_neg (not_lt.mpr h)]
    · exact plan_days_length _ _ _ days 0 []
    · intro dp hdp
      have h4 := plan_days_slots _ _ choice hb hl hd hs days 0 [] dp hdp
      exact ⟨le_of_eq h4, h4⟩

/-- Witness for C5: ten eligible meals, three days, the constant-zero choice
supply. -/
theorem C5_planner_contract_witness :
    10 ≤ (filter_by_preferences tenMeals none).length ∧
    (∃ plan, generate_weekly_plan userBare none tenMeals 3 (fun _ => 0) = .ok plan ∧
      plan.weekly_plan.length = 3 ∧
      ∀ dp ∈ plan.weekly_plan, dp.meals.length ≤ 4 ∧ dp.meals.length = 4) := by
  have h10 : 10 ≤ (filter_by_preferences tenMeals none).length := by decide
  exact ⟨h10, (C5_planner_contract userBare none tenMeals 3 (fun _ => 0)).2 h10⟩
